import Mathlib

/-!
Verification development for the be-bcv e-commerce backend
(order/cart/payment lifecycle engine and user service).

The Go source is shallowly embedded:
* database tables become lists of records inside an explicit state
  (`OrderDB`, carried through every repository operation);
* each GORM repository method becomes a Lean function
  `args → OrderDB → result × OrderDB` (a returned `Except` mirrors Go's
  `error` results; an error from a `db.Transaction` block returns the
  original state, since the transaction rolls back);
* `uuid.UUID` is modelled as `Nat`, Go `int` as `Int` (the claims checked
  here do not exercise 64-bit overflow), `float64` money amounts as `Rat`
  (they are only copied and compared for equality), and `time.Time`
  instants as `Nat` parameters supplied by the caller;
* `gorm.DB.Create` fails exactly on a primary-key / unique-index
  collision; `gorm.DB.Model(...).Where(...).Update(...)` matching zero
  rows is a success with zero rows affected (GORM returns no error in
  that case).

The order service, order handler, payment service and user repository of
the repository are not among the sources (only `main.go` wires them and
the repository layer they call is present); where a claim depends on
them, the missing part is modelled from the specification and marked
`Modelled from the spec:` in its doc comment.
-/

/-- Embeds `uuid.UUID`, modelled as a natural number. -/
abbrev UUID := Nat

/-- Go `float64` monetary amounts; the embedded code only copies and
compares them, so exact rationals are used. -/
abbrev Money := Rat

/-- Embeds `models.Cart` (internal/models/order.go): one cart line,
unique per (UserID, ProductID). Timestamps are not modelled. -/
structure Cart where
  id : UUID
  userID : UUID
  productID : UUID
  quantity : Int
  deriving Repr, DecidableEq

/-- Embeds `models.Order` (internal/models/order.go). Timestamp, soft-delete and
association fields are not modelled. -/
structure Order where
  id : UUID
  userID : UUID
  orderNumber : String
  status : String
  totalAmount : Money
  shippingCost : Money
  subtotal : Money
  address : String
  paymentID : UUID
  paymentStatus : String
  notes : String
  deriving Repr, DecidableEq

/-- Embeds `models.OrderItem` (internal/models/order.go). -/
structure OrderItem where
  id : UUID
  orderID : UUID
  productID : UUID
  quantity : Int
  price : Money
  subtotal : Money
  deriving Repr, DecidableEq

/-- Embeds `models.OrderStatusHistory` (internal/models/order.go).
`createdAt` ordering is modelled by list position: histories are appended
in creation order, so the most recent row is the last element. -/
structure OrderStatusHistory where
  id : UUID
  orderID : UUID
  fromStatus : String
  toStatus : String
  notes : String
  createdBy : UUID
  deriving Repr, DecidableEq

/-- Embeds `models.Payment` (internal/models/order.go). `paidAt` is an optional
instant (`*time.Time`). -/
structure Payment where
  id : UUID
  orderID : UUID
  userID : UUID
  amount : Money
  method : String
  status : String
  paymentURL : String
  paidAt : Option Nat
  transactionID : String
  deriving Repr, DecidableEq

/-- Embeds `models.Product`, restricted to the fields the order core reads
(id, stock, price, is_active). -/
structure Product where
  id : UUID
  stock : Int
  price : Money
  isActive : Bool
  deriving Repr, DecidableEq

/-- Errors returned by the repository layer. `recordNotFound` is GORM's
`ErrRecordNotFound`; `duplicateKey` is the database rejecting an insert
that collides with a primary key or unique index. -/
inductive RepoError where
  | recordNotFound
  | duplicateKey
  deriving Repr, DecidableEq

/-- The order-service database: one list per table, rows in insertion
order. -/
structure OrderDB where
  carts : List Cart
  orders : List Order
  orderItems : List OrderItem
  histories : List OrderStatusHistory
  payments : List Payment
  products : List Product
  deriving Repr, DecidableEq

/-- The empty database. -/
def OrderDB.empty : OrderDB :=
  { carts := [], orders := [], orderItems := [], histories := [],
    payments := [], products := [] }

/-- Embeds `CartRepository.AddToCart` (internal/repository/order_repository.go
lines 19-34): look up the line for (UserID, ProductID); if found,
increment its quantity and `Save` it back (a full-row write keyed on the
primary key); otherwise `Create` the new line. -/
def AddToCart (db : OrderDB) (cart : Cart) : Except RepoError Unit × OrderDB :=
  match db.carts.find? (fun c => c.userID == cart.userID && c.productID == cart.productID) with
  | some existingCart =>
      let updated : Cart := { existingCart with quantity := existingCart.quantity + cart.quantity }
      (.ok (), { db with carts := db.carts.map (fun c => if c.id == existingCart.id then updated else c) })
  | none =>
      if db.carts.any (fun c => c.id == cart.id) then
        (.error .duplicateKey, db)
      else
        (.ok (), { db with carts := db.carts ++ [cart] })

/-- Embeds `CartRepository.UpdateCartItem` (order_repository.go lines 42-46):
`Update("quantity", quantity)` filtered on `id = ? AND user_id = ?`.
GORM reports no error when the filter matches zero rows, so the call
succeeds whether or not such a line exists. -/
def UpdateCartItem (db : OrderDB) (cartID : UUID) (userID : UUID) (quantity : Int) :
    Except RepoError Unit × OrderDB :=
  let carts := db.carts.map (fun c =>
    if c.id == cartID && c.userID == userID then { c with quantity := quantity } else c)
  (.ok (), { db with carts := carts })

/-- Embeds `CartRepository.ClearCart` (order_repository.go lines 52-54): delete
every line of the user. -/
def ClearCart (db : OrderDB) (userID : UUID) : Except RepoError Unit × OrderDB :=
  (.ok (), { db with carts := db.carts.filter (fun c => !(c.userID == userID)) })

/-- Embeds `utils.Pagination` (pkg/utils response helpers). -/
structure Pagination where
  page : Int
  limit : Int
  total : Int
  totalPages : Int
  deriving Repr, DecidableEq

/-- Embeds `utils.NewPagination`: `totalPages := (total + limit - 1) / limit`
with Go's `/`, which truncates toward zero (`Int.tdiv`). -/
def NewPagination (page limit total : Int) : Pagination :=
  { page := page, limit := limit, total := total,
    totalPages := Int.tdiv (total + limit - 1) limit }

/-- Embeds `OrderRepository.CreateOrder` (order_repository.go lines 76-93): one
`db.Transaction` creating the order row and its first status-history row
(`FromStatus` left at its Go zero value `""`, `ToStatus = order.Status`,
`Notes = "Order created"`, `CreatedBy = order.UserID`). If either insert
fails the transaction rolls back and the state is unchanged. `histID` is
the generated `uuid.New()` for the history row. -/
def CreateOrder (db : OrderDB) (order : Order) (histID : UUID) :
    Except RepoError Unit × OrderDB :=
  if db.orders.any (fun o => o.id == order.id || o.orderNumber == order.orderNumber) then
    (.error .duplicateKey, db)
  else if db.histories.any (fun h => h.id == histID) then
    (.error .duplicateKey, db)
  else
    let history : OrderStatusHistory :=
      { id := histID, orderID := order.id, fromStatus := "",
        toStatus := order.status, notes := "Order created", createdBy := order.userID }
    (.ok (), { db with orders := db.orders ++ [order], histories := db.histories ++ [history] })

/-- Embeds `OrderRepository.CreateOrderItem` (order_repository.go lines 95-97):
a single `db.Create` in its own implicit transaction, independent of
`CreateOrder`. -/
def CreateOrderItem (db : OrderDB) (item : OrderItem) : Except RepoError Unit × OrderDB :=
  if db.orderItems.any (fun i => i.id == item.id) then
    (.error .duplicateKey, db)
  else
    (.ok (), { db with orderItems := db.orderItems ++ [item] })

/-- Embeds `OrderRepository.UpdateOrderStatus` (order_repository.go lines
174-198), one `db.Transaction`:
1. `tx.Where("id = ?", orderID).First(&order)` — `recordNotFound` if the
   order does not exist;
2. `tx.Model(&order).Update("status", status)` — GORM's update callbacks
   (`SetupUpdateReflectValue` / `ConvertToAssignments`) assign the
   updated column value back into the in-memory `order` struct, so after
   this call `order.Status` holds the NEW status;
3. the history row is built from that same struct, so its
   `FromStatus: order.Status` reads the value written in step 2, and the
   row is inserted.
If any step fails the whole transaction rolls back. -/
def UpdateOrderStatus (db : OrderDB) (orderID : UUID) (status : String)
    (notes : String) (updatedBy : UUID) (histID : UUID) :
    Except RepoError Unit × OrderDB :=
  match db.orders.find? (fun o => o.id == orderID) with
  | none => (.error .recordNotFound, db)
  | some order =>
      let orderAfterUpdate : Order := { order with status := status }
      let history : OrderStatusHistory :=
        { id := histID, orderID := orderID,
          fromStatus := orderAfterUpdate.status,
          toStatus := status, notes := notes, createdBy := updatedBy }
      if db.histories.any (fun h => h.id == histID) then
        (.error .duplicateKey, db)
      else
        let orders := db.orders.map (fun o => if o.id == orderID then orderAfterUpdate else o)
        (.ok (), { db with orders := orders, histories := db.histories ++ [history] })

/-- Embeds `PaymentRepository.CreatePayment` (order_repository.go lines
227-229): a single `db.Create`. -/
def CreatePayment (db : OrderDB) (payment : Payment) : Except RepoError Unit × OrderDB :=
  if db.payments.any (fun p => p.id == payment.id) then
    (.error .duplicateKey, db)
  else
    (.ok (), { db with payments := db.payments ++ [payment] })

/-- The update map built by `PaymentRepository.UpdatePaymentStatus`
(order_repository.go lines 255-267), applied to one row: `status`
always, `transaction_id` when `transactionID != ""`, `paid_at = now`
when `status == "paid"`. -/
def paymentUpdateApply (status transactionID : String) (now : Nat) (p : Payment) : Payment :=
  let p := { p with status := status }
  let p := if transactionID == "" then p else { p with transactionID := transactionID }
  if status == "paid" then { p with paidAt := some now } else p

/-- Embeds `PaymentRepository.UpdatePaymentStatus` (order_repository.go lines
255-272): apply the update map to the payment row with that id.
Matching zero rows is not an error. -/
def UpdatePaymentStatus (db : OrderDB) (paymentID : UUID) (status : String)
    (transactionID : String) (now : Nat) : Except RepoError Unit × OrderDB :=
  let payments := db.payments.map
    (fun p => if p.id == paymentID then paymentUpdateApply status transactionID now p else p)
  (.ok (), { db with payments := payments })

/-- Embeds `ProductRepository.UpdateStock` (product_repository.go lines
186-190): set `stock` to `newStock` on the row with that id; matching
zero rows is not an error. -/
def UpdateStock (db : OrderDB) (productID : UUID) (newStock : Int) :
    Except RepoError Unit × OrderDB :=
  (.ok (), { db with products := db.products.map (fun p => if p.id == productID then { p with stock := newStock } else p) })

/-- The order state machine's transition table. Modelled from the spec:
the order service holding this table is not among the sources (only the
repository layer it calls is); spec §4.3 allows exactly
pending→confirmed, pending→cancelled, confirmed→shipped,
confirmed→cancelled, shipped→delivered. -/
def allowedTransitions : List (String × String) :=
  [("pending", "confirmed"), ("pending", "cancelled"),
   ("confirmed", "shipped"), ("confirmed", "cancelled"),
   ("shipped", "delivered")]

/-- Membership in the transition table, as a boolean check. -/
def validTransition (fromStatus toStatus : String) : Bool :=
  allowedTransitions.contains (fromStatus, toStatus)

/-- Errors surfaced by the (spec-modelled) service layer. -/
inductive ServiceError where
  | validation
  | notFound
  | invalidTransition
  | emptyCart
  | productUnavailable
  | insufficientStock
  | unknownPayment
  | conflictingPaymentState
  | amountMismatch
  | unknownGatewayStatus
  | storage (e : RepoError)
  deriving Repr, DecidableEq

/-- Modelled from the spec: `TransitionOrder` of the order service
(order_service.go is not among the sources). Spec §4.3: read the current
status, validate the edge against the transition table, and only then
perform the write — an invalid edge fails with `InvalidTransitionError`
and performs no write. The write itself is the source-embedded
`UpdateOrderStatus`. -/
def TransitionOrder (db : OrderDB) (orderID : UUID) (toStatus : String)
    (notes : String) (actorID : UUID) (histID : UUID) :
    Except ServiceError Unit × OrderDB :=
  match db.orders.find? (fun o => o.id == orderID) with
  | none => (.error .notFound, db)
  | some order =>
      if validTransition order.status toStatus then
        match UpdateOrderStatus db orderID toStatus notes actorID histID with
        | (.ok _, db1) => (.ok (), db1)
        | (.error e, _) => (.error (.storage e), db)
      else
        (.error .invalidTransition, db)

/-- Modelled from the spec: the add-to-cart entry point of the order
service (not among the sources). Spec §4.1: `AddToCart` fails with
`ValidationError` if quantity ≤ 0; otherwise it is the source-embedded
repository merge-add. -/
def AddToCartChecked (db : OrderDB) (cart : Cart) : Except ServiceError Unit × OrderDB :=
  if cart.quantity ≤ 0 then
    (.error .validation, db)
  else
    match AddToCart db cart with
    | (.ok _, db1) => (.ok (), db1)
    | (.error e, _) => (.error (.storage e), db)

/-- Modelled from the spec: checkout step 2 (spec §4.2) — validate every
selected cart line against the live product: `ProductUnavailableError`
if the product is absent or inactive, `InsufficientStockError` if the
requested quantity exceeds the current stock. Pure validation, no
write. -/
def checkStock (products : List Product) : List Cart → Option ServiceError
  | [] => none
  | line :: rest =>
      match products.find? (fun p => p.id == line.productID) with
      | none => some .productUnavailable
      | some p =>
          if !p.isActive then some .productUnavailable
          else if line.quantity > p.stock then some .insufficientStock
          else checkStock products rest

/-- Modelled from the spec: checkout's stock decrements (spec §4.2 step
4), performed with the source-embedded `ProductRepository.UpdateStock` —
one separately committed update per line's product, as the source
repository offers no shared transaction. -/
def decStocks (db : OrderDB) : List Cart → OrderDB
  | [] => db
  | line :: rest =>
      match db.products.find? (fun p => p.id == line.productID) with
      | none => decStocks db rest
      | some p => decStocks (UpdateStock db p.id (p.stock - line.quantity)).2 rest

/-- Checkout's per-item inserts: the source-embedded
`OrderRepository.CreateOrderItem`, one separately committed insert per
item; on the first failure the already committed inserts remain. -/
def createItems (db : OrderDB) : List OrderItem → Except RepoError Unit × OrderDB
  | [] => (.ok (), db)
  | item :: rest =>
      match CreateOrderItem db item with
      | (.ok _, db1) => createItems db1 rest
      | (.error e, db1) => (.error e, db1)

/-- Modelled from the spec: the checkout orchestration of the order
service (order_service.go is not among the sources). It follows spec
§4.2 — load the user's cart lines (EmptyCartError if none), validate
product availability and stock, decrement stock, create the order with
its first history row, create the order items, create the payment row,
delete the consumed cart lines — but each write goes through the
source-embedded repository operations, each of which runs and commits on
its own `r.db` handle, so a failure does not undo the earlier calls. -/
def Checkout (db : OrderDB) (userID : UUID) (order : Order)
    (items : List OrderItem) (payment : Payment) (histID : UUID) :
    Except ServiceError Unit × OrderDB :=
  let lines := db.carts.filter (fun c => c.userID == userID)
  if lines.isEmpty then (.error .emptyCart, db)
  else
    match checkStock db.products lines with
    | some e => (.error e, db)
    | none =>
        let db1 := decStocks db lines
        match CreateOrder db1 order histID with
        | (.error e, db2) => (.error (.storage e), db2)
        | (.ok _, db2) =>
            match createItems db2 items with
            | (.error e, db3) => (.error (.storage e), db3)
            | (.ok _, db3) =>
                match CreatePayment db3 payment with
                | (.error e, db4) => (.error (.storage e), db4)
                | (.ok _, db4) => (.ok (), (ClearCart db4 userID).2)

/-- The terminal payment statuses (spec §4.4 / glossary). -/
def terminalStatuses : List String := ["paid", "failed", "refunded"]

/-- Modelled from the spec: the mapping from the gateway's callback
status to the internal payment status (spec §4.4 step 4; the gateway is
Midtrans per the configuration): settlement/capture map to success
(`paid`), deny/cancel/expire map to failure (`failed`), anything else is
unrecognised. -/
def mapGatewayStatus : String → Option String
  | "settlement" => some "paid"
  | "capture" => some "paid"
  | "deny" => some "failed"
  | "cancel" => some "failed"
  | "expire" => some "failed"
  | _ => none

/-- Modelled from the spec: `ApplyCallback` of the payment reconciler
(payment_service.go is not among the sources). Spec §4.4:
1. look up the payment by its external reference (the gateway
   transaction id, stored in `transaction_id`) — `UnknownPaymentError`
   if absent;
2. idempotency guard — if the payment is already terminal and the
   incoming status maps to the same terminal status, succeed without any
   write; if it maps to a different terminal status,
   `ConflictingPaymentStateError` without a write;
3. reject an `amount` differing from the recorded amount
   (`AmountMismatchError`, no write);
4. on the success mapping set the payment to `paid` (the source-embedded
   `UpdatePaymentStatus`, which also sets `paid_at`) and, when the order
   is still `pending`, drive it to `confirmed` through `TransitionOrder`;
   on the failure mapping set the payment to `failed` and leave the
   order untouched.
Steps 2-4 span one transaction: a failure inside returns the original
state. -/
def ApplyCallback (db : OrderDB) (externalReference : String)
    (gatewayStatus : String) (amount : Money) (now : Nat) (histID : UUID) :
    Except ServiceError Unit × OrderDB :=
  match db.payments.find? (fun p => p.transactionID == externalReference) with
  | none => (.error .unknownPayment, db)
  | some payment =>
      match mapGatewayStatus gatewayStatus with
      | none => (.error .unknownGatewayStatus, db)
      | some target =>
          if terminalStatuses.contains payment.status then
            if target == payment.status then (.ok (), db)
            else (.error .conflictingPaymentState, db)
          else if !(amount == payment.amount) then (.error .amountMismatch, db)
          else if target == "paid" then
            let db1 := (UpdatePaymentStatus db payment.id "paid" externalReference now).2
            match db1.orders.find? (fun o => o.id == payment.orderID) with
            | none => (.error .notFound, db)
            | some order =>
                if order.status == "pending" then
                  match TransitionOrder db1 payment.orderID "confirmed" "Payment received" payment.userID histID with
                  | (.ok _, db2) => (.ok (), db2)
                  | (.error e, _) => (.error e, db)
                else (.ok (), db1)
          else
            (.ok (), (UpdatePaymentStatus db payment.id "failed" externalReference now).2)

/-- Embeds `models.User` (internal/models/user.go). Timestamps and soft-delete
are not modelled. -/
structure User where
  id : UUID
  name : String
  email : String
  password : String
  phone : String
  address : String
  role : String
  isActive : Bool
  deriving Repr, DecidableEq

/-- Embeds `service.RegisterRequest` (internal/service/user_service.go). -/
structure RegisterRequest where
  name : String
  email : String
  password : String
  phone : String
  address : String
  deriving Repr, DecidableEq

/-- Embeds `service.LoginRequest` (internal/service/user_service.go). -/
structure LoginRequest where
  email : String
  password : String
  deriving Repr, DecidableEq

/-- Embeds `service.AuthResponse` (internal/service/user_service.go). -/
structure AuthResponse where
  user : User
  accessToken : String
  refreshToken : String
  deriving Repr, DecidableEq

/-- Embeds `UserService.Register` (user_service.go lines 55-109). The user
repository, bcrypt, JWT signing and Redis are external collaborators not
among the sources, so their results enter as parameters: `existingUser`
is `userRepo.GetByEmail(req.Email)`, `hashedPassword` the bcrypt digest,
`newID` the generated `uuid.New()`, and the two tokens the signed JWTs
(with their stores assumed to succeed, as any failure returns no user at
all). The created user carries the bcrypt digest in `Password`; the code
clears `user.Password` just before building the response. -/
def Register (req : RegisterRequest) (existingUser : Option User)
    (hashedPassword : String) (newID : UUID)
    (accessToken refreshToken : String) : Except String AuthResponse :=
  match existingUser with
  | some _ => .error "user already exists"
  | none =>
      let user : User :=
        { id := newID, name := req.name, email := req.email,
          password := hashedPassword, phone := req.phone,
          address := req.address, role := "user", isActive := true }
      let user := { user with password := "" }
      .ok { user := user, accessToken := accessToken, refreshToken := refreshToken }

/-- Embeds `UserService.Login` (user_service.go lines 111-150). `user` is the
repository's `GetByEmail` result; `bcryptMatches` stands for
`bcrypt.CompareHashAndPassword` succeeding on (stored digest, supplied
password). The password is cleared just before the response. -/
def Login (req : LoginRequest) (user : Option User)
    (bcryptMatches : String → String → Bool)
    (accessToken refreshToken : String) : Except String AuthResponse :=
  match user with
  | none => .error "user not found"
  | some user =>
      if !bcryptMatches user.password req.password then .error "invalid credentials"
      else if !user.isActive then .error "user account is deactivated"
      else
        let user := { user with password := "" }
        .ok { user := user, accessToken := accessToken, refreshToken := refreshToken }

/-- Embeds `UserService.RefreshToken` (user_service.go lines 159-226).
`parsedUserID` is the user id recovered from a valid JWT (`none` when
parsing or claim extraction fails), `tokenInRedis` the Redis existence
check, `user` the repository lookup, and the two tokens the newly signed
JWTs. The password is cleared just before the response. -/
def RefreshToken (parsedUserID : Option UUID) (tokenInRedis : Bool)
    (user : Option User) (accessToken newRefreshToken : String) :
    Except String AuthResponse :=
  match parsedUserID with
  | none => .error "invalid refresh token"
  | some _ =>
      if !tokenInRedis then .error "refresh token not found"
      else
        match user with
        | none => .error "user not found"
        | some user =>
            let user := { user with password := "" }
            .ok { user := user, accessToken := accessToken, refreshToken := newRefreshToken }

/-- Embeds `UserService.GetProfile` (user_service.go lines 228-240): repository
lookup, then clear the password. -/
def GetProfile (user : Option User) : Except String User :=
  match user with
  | none => .error "user not found"
  | some user => .ok { user with password := "" }

/-- Embeds `UserService.UpdateProfile` (user_service.go lines 242-269): apply
the present entries of the update map to name/phone/address, persist the
record (still carrying the stored digest), then clear the password for
the response. -/
def UpdateProfile (user : Option User)
    (name phone address : Option String) : Except String User :=
  match user with
  | none => .error "user not found"
  | some user =>
      let user := match name with | some n => { user with name := n } | none => user
      let user := match phone with | some p => { user with phone := p } | none => user
      let user := match address with | some a => { user with address := a } | none => user
      .ok { user with password := "" }

/-- Embeds `UserService.GetAllUsers` (user_service.go lines 275-287): the
repository page of users with every password cleared. -/
def GetAllUsers (users : List User) : List User :=
  users.map (fun u => { u with password := "" })

/-- Embeds `UserService.GetUserByID` (user_service.go lines 289-301). -/
def GetUserByID (user : Option User) : Except String User :=
  match user with
  | none => .error "user not found"
  | some user => .ok { user with password := "" }

/-- A sequence of `UpdateOrderStatus` calls against one order, stopping
at the first failure: each list element supplies
(status, notes, updatedBy, histID). Returns the resulting state when
every call in the sequence succeeded. -/
def runUpdates (orderID : UUID) : OrderDB → List (String × String × UUID × UUID) → Option OrderDB
  | db, [] => some db
  | db, u :: us =>
      match UpdateOrderStatus db orderID u.1 u.2.1 u.2.2.1 u.2.2.2 with
      | (.ok _, db1) => runUpdates orderID db1 us
      | (.error _, _) => none

theorem map_id_of_mem {α : Type} (l : List α) (f : α → α) (h : ∀ a ∈ l, f a = a) :
    l.map f = l := by
  induction l with
  | nil => rfl
  | cons a t ih =>
      simp only [List.map_cons, h a (by simp)]
      rw [ih (fun x hx => h x (by simp [hx]))]

/-- C7: for every user and product, `AddToCart` with quantity ≤ 0 fails
with `ValidationError` and neither creates nor modifies any cart line
(the state is returned unchanged). -/
theorem C7_nonpositive_quantity_rejected (db : OrderDB) (cart : Cart)
    (h : cart.quantity ≤ 0) :
    AddToCartChecked db cart = (.error .validation, db) := by
  simp [AddToCartChecked, h]

theorem C7_witness :
    (Cart.mk 1 2 3 0).quantity ≤ 0 ∧
      AddToCartChecked OrderDB.empty (Cart.mk 1 2 3 0) = (.error .validation, OrderDB.empty) :=
  ⟨by decide, C7_nonpositive_quantity_rejected OrderDB.empty (Cart.mk 1 2 3 0) (by decide)⟩

/-- C8 counterexample: in a database whose only cart line (id 1) belongs
to user 2, `UpdateCartItem(1, 3, 5)` — line 1 does not belong to user
3 — returns success with the state unchanged, not `NotFoundError`. -/
theorem C8_counterexample :
    UpdateCartItem (OrderDB.mk [Cart.mk 1 2 3 4] [] [] [] [] []) 1 3 5 =
        (.ok (), OrderDB.mk [Cart.mk 1 2 3 4] [] [] [] [] []) ∧
      (UpdateCartItem (OrderDB.mk [Cart.mk 1 2 3 4] [] [] [] [] []) 1 3 5).1 ≠
        .error .recordNotFound :=
  ⟨rfl, fun h => Except.noConfusion h⟩

/-- C8 amended: when no cart line with that lineID belongs to that
userID, `UpdateCartItem` returns success (GORM's `Update` matching zero
rows is not an error) and leaves every cart line unchanged. -/
theorem C8_no_matching_line_is_silent_noop (db : OrderDB) (cartID userID : UUID)
    (quantity : Int)
    (h : ∀ c ∈ db.carts, ¬(c.id = cartID ∧ c.userID = userID)) :
    UpdateCartItem db cartID userID quantity = (.ok (), db) := by
  have hm : db.carts.map (fun c =>
      if c.id == cartID && c.userID == userID then { c with quantity := quantity } else c) = db.carts := by
    refine map_id_of_mem _ _ (fun c hc => ?_)
    have hcc := h c hc
    have hcond : (c.id == cartID && c.userID == userID) = false := by
      simp only [Bool.and_eq_false_iff, beq_eq_false_iff_ne]
      tauto
    simp [hcond]
  show (Except.ok (), { db with carts := db.carts.map (fun c =>
      if c.id == cartID && c.userID == userID then { c with quantity := quantity } else c) }) = (.ok (), db)
  rw [hm]

theorem C8_amended_witness :
    (∀ c ∈ (OrderDB.mk [Cart.mk 1 2 3 4] [] [] [] [] []).carts, ¬(c.id = 1 ∧ c.userID = 3)) ∧
      UpdateCartItem (OrderDB.mk [Cart.mk 1 2 3 4] [] [] [] [] []) 1 3 5 =
        (.ok (), OrderDB.mk [Cart.mk 1 2 3 4] [] [] [] [] []) :=
  ⟨by decide, C8_no_matching_line_is_silent_noop _ 1 3 5 (by decide)⟩

/-- C2, at the failing input: an order in status `"pending"` is moved to
`"confirmed"` by `UpdateOrderStatus`. The update succeeds, but the
inserted history row records `fromStatus = "confirmed"` — the NEW
status, not the observed prior status `"pending"` — because GORM's
`Update` writes the new column value back into the in-memory `order`
struct before the history literal reads `order.Status`. -/
theorem C2_from_status_is_new_status :
    (UpdateOrderStatus
        (OrderDB.mk [] [Order.mk 1 2 "ORD-1" "pending" 0 0 0 "" 0 "pending" ""] [] [] [] [])
        1 "confirmed" "note" 5 9).1 = .ok () ∧
      ((UpdateOrderStatus
          (OrderDB.mk [] [Order.mk 1 2 "ORD-1" "pending" 0 0 0 "" 0 "pending" ""] [] [] [] [])
          1 "confirmed" "note" 5 9).2.histories.map
        (fun h => (h.fromStatus, h.toStatus))) = [("confirmed", "confirmed")] := by
  constructor <;> rfl

/-- C10: for total ≥ 0 and limit > 0, `NewPagination` echoes page, limit
and total, and `totalPages` is the ceiling of total / limit:
`totalPages * limit ≥ total`, `(totalPages - 1) * limit < total` when
total > 0, and `totalPages = 0` when total = 0. -/
theorem C10_new_pagination_ceiling (page limit total : Int)
    (htotal : 0 ≤ total) (hlimit : 0 < limit) :
    (NewPagination page limit total).page = page ∧
      (NewPagination page limit total).limit = limit ∧
      (NewPagination page limit total).total = total ∧
      total ≤ (NewPagination page limit total).totalPages * limit ∧
      (0 < total → ((NewPagination page limit total).totalPages - 1) * limit < total) ∧
      (total = 0 → (NewPagination page limit total).totalPages = 0) := by
  have hnum : (0 : Int) ≤ total + limit - 1 := by omega
  have htd : Int.tdiv (total + limit - 1) limit = (total + limit - 1) / limit :=
    Int.tdiv_eq_ediv hnum (le_of_lt hlimit)
  have he : limit * ((total + limit - 1) / limit) + (total + limit - 1) % limit
      = total + limit - 1 := Int.ediv_add_emod _ _
  have hr0 : 0 ≤ (total + limit - 1) % limit := Int.emod_nonneg _ (by omega)
  have hr1 : (total + limit - 1) % limit < limit := Int.emod_lt_of_pos _ hlimit
  refine ⟨rfl, rfl, rfl, ?_, ?_, ?_⟩
  · show total ≤ Int.tdiv (total + limit - 1) limit * limit
    rw [htd]
    have hcomm : (total + limit - 1) / limit * limit = limit * ((total + limit - 1) / limit) :=
      mul_comm _ _
    linarith
  · intro _
    show (Int.tdiv (total + limit - 1) limit - 1) * limit < total
    rw [htd]
    have hexp : ((total + limit - 1) / limit - 1) * limit
        = limit * ((total + limit - 1) / limit) - limit := by ring
    linarith
  · intro h0
    show Int.tdiv (total + limit - 1) limit = 0
    rw [htd, h0]
    have : (0 : Int) + limit - 1 < limit := by omega
    exact Int.ediv_eq_zero_of_lt (by omega) this

theorem C10_witness :
    (0 : Int) ≤ 25 ∧ (0 : Int) < 10 ∧
      ((NewPagination 2 10 25).page = 2 ∧
        (NewPagination 2 10 25).limit = 10 ∧
        (NewPagination 2 10 25).total = 25 ∧
        (25 : Int) ≤ (NewPagination 2 10 25).totalPages * 10 ∧
        ((0 : Int) < 25 → ((NewPagination 2 10 25).totalPages - 1) * 10 < 25) ∧
        ((25 : Int) = 0 → (NewPagination 2 10 25).totalPages = 0)) :=
  ⟨by decide, by decide, C10_new_pagination_ceiling 2 10 25 (by decide) (by decide)⟩

/-- C1: for every order and every (from, to) pair outside the allowed
set {pending→confirmed, pending→cancelled, confirmed→shipped,
confirmed→cancelled, shipped→delivered}, the status-transition
operation fails with `InvalidTransitionError` and performs no write —
the returned state is the input state, so status and history rows are
unchanged. -/
theorem C1_invalid_transition_rejected (db : OrderDB) (orderID : UUID)
    (toStatus notes : String) (actorID histID : UUID) (o : Order)
    (hfind : db.orders.find? (fun x => x.id == orderID) = some o)
    (hmem : (o.status, toStatus) ∉ allowedTransitions) :
    TransitionOrder db orderID toStatus notes actorID histID =
      (.error .invalidTransition, db) := by
  have hv : validTransition o.status toStatus = false := by
    simpa [validTransition] using hmem
  simp [TransitionOrder, hfind, hv]

theorem C1_witness :
    (OrderDB.mk [] [Order.mk 1 2 "N1" "delivered" 0 0 0 "" 0 "pending" ""] [] [] [] []).orders.find?
        (fun x => x.id == 1) = some (Order.mk 1 2 "N1" "delivered" 0 0 0 "" 0 "pending" "") ∧
      ("delivered", "pending") ∉ allowedTransitions ∧
      TransitionOrder (OrderDB.mk [] [Order.mk 1 2 "N1" "delivered" 0 0 0 "" 0 "pending" ""] [] [] [] [])
          1 "pending" "n" 5 9 =
        (.error .invalidTransition,
          OrderDB.mk [] [Order.mk 1 2 "N1" "delivered" 0 0 0 "" 0 "pending" ""] [] [] [] []) :=
  ⟨by decide, by decide,
    C1_invalid_transition_rejected
      (OrderDB.mk [] [Order.mk 1 2 "N1" "delivered" 0 0 0 "" 0 "pending" ""] [] [] [] [])
      1 "pending" "n" 5 9 (Order.mk 1 2 "N1" "delivered" 0 0 0 "" 0 "pending" "")
      (by decide) (by decide)⟩

/-- C9: every User value returned by a UserService operation (Register,
Login, RefreshToken, GetProfile, GetUserByID, GetAllUsers,
UpdateProfile) has its Password field cleared to the empty string, for
every input and every repository/collaborator result. -/
theorem C9_returned_users_password_cleared :
    (∀ req existingUser hashedPassword newID atk rtk,
        Option.all (fun r => r.user.password == "")
          (Register req existingUser hashedPassword newID atk rtk).toOption = true) ∧
      (∀ req user bcryptMatches atk rtk,
        Option.all (fun r => r.user.password == "")
          (Login req user bcryptMatches atk rtk).toOption = true) ∧
      (∀ parsedUserID tokenInRedis user atk rtk,
        Option.all (fun r => r.user.password == "")
          (RefreshToken parsedUserID tokenInRedis user atk rtk).toOption = true) ∧
      (∀ user, Option.all (fun u => u.password == "") (GetProfile user).toOption = true) ∧
      (∀ user name phone address,
        Option.all (fun u => u.password == "")
          (UpdateProfile user name phone address).toOption = true) ∧
      (∀ users, (GetAllUsers users).all (fun u => u.password == "") = true) ∧
      (∀ user, Option.all (fun u => u.password == "") (GetUserByID user).toOption = true) := by
  refine ⟨?_, ?_, ?_, ?_, ?_, ?_, ?_⟩
  · intro req existingUser hashedPassword newID atk rtk
    cases existingUser <;> simp [Register, Except.toOption]
  · intro req user bcryptMatches atk rtk
    cases user with
    | none => simp [Login, Except.toOption]
    | some u =>
        cases hb : bcryptMatches u.password req.password <;>
          cases hia : u.isActive <;>
            simp [Login, hb, hia, Except.toOption]
  · intro parsedUserID tokenInRedis user atk rtk
    cases parsedUserID with
    | none => simp [RefreshToken, Except.toOption]
    | some pid =>
        cases tokenInRedis <;> cases user <;> simp [RefreshToken, Except.toOption]
  · intro user
    cases user <;> simp [GetProfile, Except.toOption]
  · intro user name phone address
    cases user with
    | none => simp [UpdateProfile, Except.toOption]
    | some u => cases name <;> cases phone <;> cases address <;> simp [UpdateProfile, Except.toOption]
  · intro users
    simp [GetAllUsers, List.all_eq_true]
  · intro user
    cases user <;> simp [GetUserByID, Except.toOption]

/-- C4: adding quantity q1 and then q2 for the same (userID, productID)
pair — starting from a state with no line for that pair and a fresh line
id — leaves exactly one cart line for the pair, with quantity q1 + q2. -/
theorem C4_cart_merge_single_line (db : OrderDB) (c1 c2 : Cart)
    (hu : c2.userID = c1.userID) (hp : c2.productID = c1.productID)
    (hno : ∀ c ∈ db.carts, ¬(c.userID = c1.userID ∧ c.productID = c1.productID))
    (hfresh : ∀ c ∈ db.carts, c.id ≠ c1.id) :
    ((AddToCart (AddToCart db c1).2 c2).2.carts.filter
        (fun c => c.userID == c1.userID && c.productID == c1.productID))
      = [{ c1 with quantity := c1.quantity + c2.quantity }] := by
  have hfind1 : db.carts.find? (fun c => c.userID == c1.userID && c.productID == c1.productID) = none := by
    refine List.find?_eq_none.mpr (fun c hc => ?_)
    have := hno c hc
    simp only [Bool.and_eq_true, beq_iff_eq]
    tauto
  have hany1 : db.carts.any (fun c => c.id == c1.id) = false := by
    simp only [List.any_eq_false]
    intro c hc
    simpa using hfresh c hc
  have step1 : (AddToCart db c1).2 = { db with carts := db.carts ++ [c1] } := by
    simp [AddToCart, hfind1, hany1]
  have hfind2 : (db.carts ++ [c1]).find?
      (fun c => c.userID == c2.userID && c.productID == c2.productID) = some c1 := by
    rw [hu, hp, List.find?_append, hfind1]
    simp
  have hmap : (db.carts ++ [c1]).map
      (fun c => if c.id == c1.id then { c1 with quantity := c1.quantity + c2.quantity } else c)
        = db.carts ++ [{ c1 with quantity := c1.quantity + c2.quantity }] := by
    rw [List.map_append]
    congr 1
    · refine map_id_of_mem _ _ (fun c hc => ?_)
      have hne : (c.id == c1.id) = false := by simpa using hfresh c hc
      simp [hne]
    · simp
  have step2 : (AddToCart { db with carts := db.carts ++ [c1] } c2).2
      = { db with carts := db.carts ++ [{ c1 with quantity := c1.quantity + c2.quantity }] } := by
    simp only [AddToCart, hfind2]
    rw [hmap]
  rw [step1, step2]
  show (db.carts ++ [{ c1 with quantity := c1.quantity + c2.quantity }]).filter
      (fun c => c.userID == c1.userID && c.productID == c1.productID)
    = [{ c1 with quantity := c1.quantity + c2.quantity }]
  rw [List.filter_append]
  have hnil : db.carts.filter (fun c => c.userID == c1.userID && c.productID == c1.productID) = [] := by
    refine List.filter_eq_nil_iff.mpr (fun c hc => ?_)
    have := hno c hc
    simp only [Bool.and_eq_true, beq_iff_eq]
    tauto
  rw [hnil]
  simp

theorem C4_witness :
    ((2 : UUID) = 2 ∧ (9 : UUID) = 9 ∧
        (∀ c ∈ OrderDB.empty.carts, ¬(c.userID = 2 ∧ c.productID = 9)) ∧
        (∀ c ∈ OrderDB.empty.carts, c.id ≠ 1)) ∧
      ((AddToCart (AddToCart OrderDB.empty (Cart.mk 1 2 9 3)).2 (Cart.mk 4 2 9 5)).2.carts.filter
          (fun c => c.userID == 2 && c.productID == 9))
        = [Cart.mk 1 2 9 8] :=
  ⟨⟨rfl, rfl, by decide, by decide⟩,
    C4_cart_merge_single_line OrderDB.empty (Cart.mk 1 2 9 3) (Cart.mk 4 2 9 5)
      rfl rfl (by decide) (by decide)⟩

theorem updateOrderStatus_ok_cases (db : OrderDB) (orderID : UUID) (st n : String)
    (actor hid : UUID) (db1 : OrderDB)
    (h : UpdateOrderStatus db orderID st n actor hid = (.ok (), db1)) :
    ∃ order, db.orders.find? (fun o => o.id == orderID) = some order ∧
      (db.histories.any (fun x => x.id == hid)) = false ∧
      db1.orders = db.orders.map (fun o => if o.id == orderID then { order with status := st } else o) ∧
      db1.histories = db.histories ++ [OrderStatusHistory.mk hid orderID st st n actor] ∧
      db1.carts = db.carts ∧ db1.payments = db.payments ∧
      db1.orderItems = db.orderItems ∧ db1.products = db.products := by
  cases hfind : db.orders.find? (fun o => o.id == orderID) with
  | none =>
      unfold UpdateOrderStatus at h
      rw [hfind] at h
      simp at h
  | some order =>
      unfold UpdateOrderStatus at h
      rw [hfind] at h
      cases hdup : db.histories.any (fun x => x.id == hid) with
      | true => simp [hdup] at h
      | false =>
          simp only [hdup, Bool.false_eq_true, if_false, Prod.mk.injEq] at h
          obtain ⟨-, hst⟩ := h
          exact ⟨order, rfl, rfl, by rw [← hst], by rw [← hst], by rw [← hst],
            by rw [← hst], by rw [← hst], by rw [← hst]⟩

theorem updateOrderStatus_error_state (db : OrderDB) (orderID : UUID) (st n : String)
    (actor hid : UUID) (e : RepoError) (db1 : OrderDB)
    (h : UpdateOrderStatus db orderID st n actor hid = (.error e, db1)) : db1 = db := by
  cases hfind : db.orders.find? (fun o => o.id == orderID) with
  | none =>
      unfold UpdateOrderStatus at h
      rw [hfind] at h
      simp only [Prod.mk.injEq] at h
      exact h.2.symm
  | some order =>
      unfold UpdateOrderStatus at h
      rw [hfind] at h
      cases hdup : db.histories.any (fun x => x.id == hid) with
      | true =>
          simp only [hdup, if_true, Prod.mk.injEq] at h
          exact h.2.symm
      | false => simp [hdup] at h

theorem createOrder_ok_cases (db : OrderDB) (order : Order) (histID : UUID) (db1 : OrderDB)
    (h : CreateOrder db order histID = (.ok (), db1)) :
    (db.orders.any (fun o => o.id == order.id || o.orderNumber == order.orderNumber)) = false ∧
      db1.orders = db.orders ++ [order] ∧
      db1.histories = db.histories ++
        [OrderStatusHistory.mk histID order.id "" order.status "Order created" order.userID] ∧
      db1.carts = db.carts ∧ db1.payments = db.payments ∧
      db1.orderItems = db.orderItems ∧ db1.products = db.products := by
  unfold CreateOrder at h
  cases hdup : db.orders.any (fun o => o.id == order.id || o.orderNumber == order.orderNumber) with
  | true => simp [hdup] at h
  | false =>
      cases hdup2 : db.histories.any (fun x => x.id == histID) with
      | true => simp [hdup, hdup2] at h
      | false =>
          simp only [hdup, hdup2, Bool.false_eq_true, if_false, Prod.mk.injEq] at h
          obtain ⟨-, hst⟩ := h
          exact ⟨rfl, by rw [← hst], by rw [← hst], by rw [← hst], by rw [← hst],
            by rw [← hst], by rw [← hst]⟩

theorem createOrder_error_state (db : OrderDB) (order : Order) (histID : UUID)
    (e : RepoError) (db1 : OrderDB)
    (h : CreateOrder db order histID = (.error e, db1)) : db1 = db := by
  unfold CreateOrder at h
  cases hdup : db.orders.any (fun o => o.id == order.id || o.orderNumber == order.orderNumber) with
  | true =>
      simp only [hdup, if_true, Prod.mk.injEq] at h
      exact h.2.symm
  | false =>
      cases hdup2 : db.histories.any (fun x => x.id == histID) with
      | true =>
          simp only [hdup, hdup2, Bool.false_eq_true, if_false, if_true, Prod.mk.injEq] at h
          exact h.2.symm
      | false => simp [hdup, hdup2] at h

theorem find?_map_update_order (l : List Order) (oid : UUID) (upd : Order)
    (hupd : (upd.id == oid) = true) :
    (l.map (fun o => if o.id == oid then upd else o)).find? (fun x => x.id == oid)
      = (l.find? (fun x => x.id == oid)).map (fun _ => upd) := by
  induction l with
  | nil => rfl
  | cons a t ih =>
      cases ha : (a.id == oid) with
      | true =>
          have hfa : (if a.id == oid then upd else a) = upd := if_pos ha
          rw [List.map_cons, hfa,
            @List.find?_cons_of_pos _ (fun x => x.id == oid) upd _ hupd,
            @List.find?_cons_of_pos _ (fun x => x.id == oid) a _ ha]
          rfl
      | false =>
          have hfa : (if a.id == oid then upd else a) = a := if_neg (by simp [ha])
          rw [List.map_cons, hfa,
            @List.find?_cons_of_neg _ (fun x => x.id == oid) a _ (by simp [ha]),
            @List.find?_cons_of_neg _ (fun x => x.id == oid) a _ (by simp [ha]), ih]

theorem runUpdates_ok_invariant (orderID : UUID) :
    ∀ (us : List (String × String × UUID × UUID)) (db db2 : OrderDB) (o : Order),
      runUpdates orderID db us = some db2 →
      db.orders.find? (fun x => x.id == orderID) = some o →
      (db.histories.filter (fun x => x.orderID == orderID)).getLast?.map
          OrderStatusHistory.toStatus = some o.status →
      ∃ o2, db2.orders.find? (fun x => x.id == orderID) = some o2 ∧
        (db2.histories.filter (fun x => x.orderID == orderID)).getLast?.map
            OrderStatusHistory.toStatus = some o2.status ∧
        (db2.histories.filter (fun x => x.orderID == orderID)).length
          = (db.histories.filter (fun x => x.orderID == orderID)).length + us.length := by
  intro us
  induction us with
  | nil =>
      intro db db2 o hrun hfind hlast
      simp only [runUpdates] at hrun
      cases hrun
      exact ⟨o, hfind, hlast, by simp⟩
  | cons u us ih =>
      intro db db2 o hrun hfind hlast
      unfold runUpdates at hrun
      cases hup : UpdateOrderStatus db orderID u.1 u.2.1 u.2.2.1 u.2.2.2 with
      | mk r db1 =>
          rw [hup] at hrun
          cases r with
          | error e => simp at hrun
          | ok _ =>
              simp only at hrun
              obtain ⟨order, hfind', hdup, horders, hhist, -, -, -, -⟩ :=
                updateOrderStatus_ok_cases _ _ _ _ _ _ _ hup
              have ho : order = o := by
                rw [hfind] at hfind'
                exact (Option.some.inj hfind').symm
              subst ho
              have hoid := List.find?_some hfind
              have hfind1 : db1.orders.find? (fun x => x.id == orderID)
                  = some { order with status := u.1 } := by
                rw [horders, find?_map_update_order _ _ _ (by simpa using hoid), hfind]
                rfl
              have hlast1 : (db1.histories.filter (fun x => x.orderID == orderID)).getLast?.map
                  OrderStatusHistory.toStatus = some ({ order with status := u.1 } : Order).status := by
                rw [hhist, List.filter_append]
                simp
              have hlen1 : (db1.histories.filter (fun x => x.orderID == orderID)).length
                  = (db.histories.filter (fun x => x.orderID == orderID)).length + 1 := by
                rw [hhist, List.filter_append]
                simp
              obtain ⟨o2, h1, h2, h3⟩ := ih db1 db2 { order with status := u.1 } hrun hfind1 hlast1
              refine ⟨o2, h1, h2, ?_⟩
              rw [h3, hlen1]
              simp only [List.length_cons]
              omega

/-- C3: after `CreateOrder` followed by any sequence of n successful
`UpdateOrderStatus` calls for that order, the order's status equals the
`toStatus` of the most recent OrderStatusHistory row for the order, and
the order has exactly 1 + n history rows. -/
theorem C3_status_equals_last_history (db0 : OrderDB) (order : Order) (histID : UUID)
    (us : List (String × String × UUID × UUID)) (db1 db2 : OrderDB)
    (hh0 : ∀ x ∈ db0.histories, x.orderID ≠ order.id)
    (hcreate : CreateOrder db0 order histID = (.ok (), db1))
    (hrun : runUpdates order.id db1 us = some db2) :
    (db2.orders.find? (fun x => x.id == order.id)).map Order.status
        = ((db2.histories.filter (fun x => x.orderID == order.id)).getLast?).map
            OrderStatusHistory.toStatus
      ∧ (db2.histories.filter (fun x => x.orderID == order.id)).length = 1 + us.length := by
  obtain ⟨hany, horders, hhist, -, -, -, -⟩ := createOrder_ok_cases _ _ _ _ hcreate
  have hfilter0 : db0.histories.filter (fun x => x.orderID == order.id) = [] := by
    refine List.filter_eq_nil_iff.mpr (fun x hx => ?_)
    simpa using hh0 x hx
  have hfind1 : db1.orders.find? (fun x => x.id == order.id) = some order := by
    rw [horders, List.find?_append]
    have hnone : db0.orders.find? (fun x => x.id == order.id) = none := by
      refine List.find?_eq_none.mpr (fun x hx => ?_)
      have := List.any_eq_false.mp hany x hx
      simp only [Bool.or_eq_true] at this
      simp only [Bool.not_eq_true]
      cases hxe : (x.id == order.id) with
      | true => exact absurd (Or.inl hxe) this
      | false => rfl
    rw [hnone]
    simp
  have hlast1 : (db1.histories.filter (fun x => x.orderID == order.id)).getLast?.map
      OrderStatusHistory.toStatus = some order.status := by
    rw [hhist, List.filter_append, hfilter0]
    simp
  have hlen1 : (db1.histories.filter (fun x => x.orderID == order.id)).length = 1 := by
    rw [hhist, List.filter_append, hfilter0]
    simp
  obtain ⟨o2, h1, h2, h3⟩ := runUpdates_ok_invariant order.id us db1 db2 order hrun hfind1 hlast1
  constructor
  · rw [h1, h2]
    rfl
  · rw [h3, hlen1]

theorem C3_witness :
    (∀ x ∈ OrderDB.empty.histories, x.orderID ≠ (1 : UUID)) ∧
      CreateOrder OrderDB.empty (Order.mk 1 2 "N" "pending" 0 0 0 "" 0 "pending" "") 10 =
        (.ok (), OrderDB.mk [] [Order.mk 1 2 "N" "pending" 0 0 0 "" 0 "pending" ""] []
          [OrderStatusHistory.mk 10 1 "" "pending" "Order created" 2] [] []) ∧
      runUpdates 1
          (OrderDB.mk [] [Order.mk 1 2 "N" "pending" 0 0 0 "" 0 "pending" ""] []
            [OrderStatusHistory.mk 10 1 "" "pending" "Order created" 2] [] [])
          [("confirmed", "n1", 3, 11), ("shipped", "n2", 3, 12)] =
        some (OrderDB.mk [] [Order.mk 1 2 "N" "shipped" 0 0 0 "" 0 "pending" ""] []
          [OrderStatusHistory.mk 10 1 "" "pending" "Order created" 2,
            OrderStatusHistory.mk 11 1 "confirmed" "confirmed" "n1" 3,
            OrderStatusHistory.mk 12 1 "shipped" "shipped" "n2" 3] [] []) ∧
      (((OrderDB.mk [] [Order.mk 1 2 "N" "shipped" 0 0 0 "" 0 "pending" ""] []
          [OrderStatusHistory.mk 10 1 "" "pending" "Order created" 2,
            OrderStatusHistory.mk 11 1 "confirmed" "confirmed" "n1" 3,
            OrderStatusHistory.mk 12 1 "shipped" "shipped" "n2" 3] [] []).orders.find?
            (fun x => x.id == 1)).map Order.status
          = (((OrderDB.mk [] [Order.mk 1 2 "N" "shipped" 0 0 0 "" 0 "pending" ""] []
              [OrderStatusHistory.mk 10 1 "" "pending" "Order created" 2,
                OrderStatusHistory.mk 11 1 "confirmed" "confirmed" "n1" 3,
                OrderStatusHistory.mk 12 1 "shipped" "shipped" "n2" 3] [] []).histories.filter
                (fun x => x.orderID == 1)).getLast?).map OrderStatusHistory.toStatus) ∧
      ((OrderDB.mk [] [Order.mk 1 2 "N" "shipped" 0 0 0 "" 0 "pending" ""] []
          [OrderStatusHistory.mk 10 1 "" "pending" "Order created" 2,
            OrderStatusHistory.mk 11 1 "confirmed" "confirmed" "n1" 3,
            OrderStatusHistory.mk 12 1 "shipped" "shipped" "n2" 3] [] []).histories.filter
          (fun x => x.orderID == 1)).length = 1 + 2 :=
  ⟨by decide, rfl, rfl,
    (C3_status_equals_last_history OrderDB.empty
      (Order.mk 1 2 "N" "pending" 0 0 0 "" 0 "pending" "") 10
      [("confirmed", "n1", 3, 11), ("shipped", "n2", 3, 12)]
      (OrderDB.mk [] [Order.mk 1 2 "N" "pending" 0 0 0 "" 0 "pending" ""] []
        [OrderStatusHistory.mk 10 1 "" "pending" "Order created" 2] [] [])
      (OrderDB.mk [] [Order.mk 1 2 "N" "shipped" 0 0 0 "" 0 "pending" ""] []
        [OrderStatusHistory.mk 10 1 "" "pending" "Order created" 2,
          OrderStatusHistory.mk 11 1 "confirmed" "confirmed" "n1" 3,
          OrderStatusHistory.mk 12 1 "shipped" "shipped" "n2" 3] [] [])
      (by decide) rfl rfl).1,
    (C3_status_equals_last_history OrderDB.empty
      (Order.mk 1 2 "N" "pending" 0 0 0 "" 0 "pending" "") 10
      [("confirmed", "n1", 3, 11), ("shipped", "n2", 3, 12)]
      (OrderDB.mk [] [Order.mk 1 2 "N" "pending" 0 0 0 "" 0 "pending" ""] []
        [OrderStatusHistory.mk 10 1 "" "pending" "Order created" 2] [] [])
      (OrderDB.mk [] [Order.mk 1 2 "N" "shipped" 0 0 0 "" 0 "pending" ""] []
        [OrderStatusHistory.mk 10 1 "" "pending" "Order created" 2,
          OrderStatusHistory.mk 11 1 "confirmed" "confirmed" "n1" 3,
          OrderStatusHistory.mk 12 1 "shipped" "shipped" "n2" 3] [] [])
      (by decide) rfl rfl).2⟩

theorem decStocks_preserves (lines : List Cart) : ∀ db : OrderDB,
    (decStocks db lines).carts = db.carts ∧ (decStocks db lines).orders = db.orders ∧
      (decStocks db lines).histories = db.histories ∧
      (decStocks db lines).orderItems = db.orderItems ∧
      (decStocks db lines).payments = db.payments := by
  induction lines with
  | nil => intro db; exact ⟨rfl, rfl, rfl, rfl, rfl⟩
  | cons line rest ih =>
      intro db
      cases hfp : db.products.find? (fun p => p.id == line.productID) with
      | none =>
          simp only [decStocks, hfp]
          exact ih db
      | some p =>
          simp only [decStocks, hfp]
          exact ih ((UpdateStock db p.id (p.stock - line.quantity)).2)

theorem createItems_preserves (items : List OrderItem) : ∀ db : OrderDB,
    (createItems db items).2.carts = db.carts ∧ (createItems db items).2.orders = db.orders ∧
      (createItems db items).2.histories = db.histories ∧
      (createItems db items).2.payments = db.payments ∧
      (createItems db items).2.products = db.products := by
  induction items with
  | nil => intro db; exact ⟨rfl, rfl, rfl, rfl, rfl⟩
  | cons item rest ih =>
      intro db
      cases hc : db.orderItems.any (fun i => i.id == item.id) with
      | true => simp [createItems, CreateOrderItem, hc]
      | false =>
          simp only [createItems, CreateOrderItem, hc, Bool.false_eq_true, if_false]
          exact ih _

theorem createPayment_preserves (db : OrderDB) (payment : Payment) :
    (CreatePayment db payment).2.carts = db.carts ∧
      (CreatePayment db payment).2.orders = db.orders ∧
      (CreatePayment db payment).2.histories = db.histories ∧
      (CreatePayment db payment).2.orderItems = db.orderItems ∧
      (CreatePayment db payment).2.products = db.products := by
  unfold CreatePayment
  split
  · exact ⟨rfl, rfl, rfl, rfl, rfl⟩
  · exact ⟨rfl, rfl, rfl, rfl, rfl⟩

/-- C5 counterexample: a checkout whose payment insert fails (its id
collides with an existing payment row) still leaves the committed Order,
OrderStatusHistory and OrderItem rows behind: `Checkout` returns an
error yet the order aggregate is partially observable, contradicting
"no Order, OrderItem, Payment, or OrderStatusHistory row exists
afterward". -/
theorem C5_counterexample :
    (Checkout
        (OrderDB.mk [Cart.mk 1 1 5 1] [] [] [] [Payment.mk 77 99 1 27 "m" "pending" "" none ""]
          [Product.mk 5 3 10 true])
        1 (Order.mk 10 1 "ORD-10" "pending" 12 2 10 "a" 0 "pending" "")
        [OrderItem.mk 20 10 5 1 10 10] (Payment.mk 77 10 1 12 "m" "pending" "" none "") 30).1
        = .error (.storage .duplicateKey) ∧
      ((Checkout
        (OrderDB.mk [Cart.mk 1 1 5 1] [] [] [] [Payment.mk 77 99 1 27 "m" "pending" "" none ""]
          [Product.mk 5 3 10 true])
        1 (Order.mk 10 1 "ORD-10" "pending" 12 2 10 "a" 0 "pending" "")
        [OrderItem.mk 20 10 5 1 10 10] (Payment.mk 77 10 1 12 "m" "pending" "" none "") 30).2.orders.map
          Order.id = [10]) ∧
      ((Checkout
        (OrderDB.mk [Cart.mk 1 1 5 1] [] [] [] [Payment.mk 77 99 1 27 "m" "pending" "" none ""]
          [Product.mk 5 3 10 true])
        1 (Order.mk 10 1 "ORD-10" "pending" 12 2 10 "a" 0 "pending" "")
        [OrderItem.mk 20 10 5 1 10 10] (Payment.mk 77 10 1 12 "m" "pending" "" none "") 30).2.histories.map
          OrderStatusHistory.orderID = [10]) ∧
      ((Checkout
        (OrderDB.mk [Cart.mk 1 1 5 1] [] [] [] [Payment.mk 77 99 1 27 "m" "pending" "" none ""]
          [Product.mk 5 3 10 true])
        1 (Order.mk 10 1 "ORD-10" "pending" 12 2 10 "a" 0 "pending" "")
        [OrderItem.mk 20 10 5 1 10 10] (Payment.mk 77 10 1 12 "m" "pending" "" none "") 30).2.orderItems.map
          OrderItem.id = [20]) := by
  refine ⟨rfl, rfl, rfl, rfl⟩

/-- C5 amended: checkout is not one atomic unit — only the Order and its
first OrderStatusHistory row are created atomically (they are the one
`db.Transaction` in `CreateOrder`, so after any checkout the order row
for `order.id` exists if and only if a history row for it does), and
cart lines are never deleted by a failed checkout (deletion happens only
after every other write succeeded). Items, payment and stock writes
commit separately and survive a later failure. -/
theorem C5_order_history_pair_and_cart_kept (db : OrderDB) (userID : UUID) (order : Order)
    (items : List OrderItem) (payment : Payment) (histID : UUID)
    (hord : ∀ o ∈ db.orders, o.id ≠ order.id)
    (hhist : ∀ x ∈ db.histories, x.orderID ≠ order.id) :
    ((Checkout db userID order items payment histID).2.orders.any (fun o => o.id == order.id))
        = ((Checkout db userID order items payment histID).2.histories.any
            (fun x => x.orderID == order.id))
      ∧ (∀ e, (Checkout db userID order items payment histID).1 = .error e →
          (Checkout db userID order items payment histID).2.carts = db.carts) := by
  have hanyo : db.orders.any (fun o => o.id == order.id) = false :=
    List.any_eq_false.mpr (fun o ho => by simpa using hord o ho)
  have hanyh : db.histories.any (fun x => x.orderID == order.id) = false :=
    List.any_eq_false.mpr (fun x hx => by simpa using hhist x hx)
  obtain ⟨hdc, hdo, hdh, hdi, hdp⟩ :=
    decStocks_preserves (db.carts.filter (fun c => c.userID == userID)) db
  cases hempty : (db.carts.filter (fun c => c.userID == userID)).isEmpty with
  | true =>
      have hch : Checkout db userID order items payment histID = (.error .emptyCart, db) := by
        simp [Checkout, hempty]
      rw [hch]
      exact ⟨by rw [hanyo, hanyh], fun e he => rfl⟩
  | false =>
      cases hcs : checkStock db.products (db.carts.filter (fun c => c.userID == userID)) with
      | some e0 =>
          have hch : Checkout db userID order items payment histID = (.error e0, db) := by
            simp [Checkout, hempty, hcs]
          rw [hch]
          exact ⟨by rw [hanyo, hanyh], fun e he => rfl⟩
      | none =>
          cases hco : CreateOrder (decStocks db (db.carts.filter (fun c => c.userID == userID)))
              order histID with
          | mk rco db2 =>
              cases rco with
              | error e1 =>
                  have hdb2 : db2 = decStocks db (db.carts.filter (fun c => c.userID == userID)) :=
                    createOrder_error_state _ _ _ _ _ hco
                  have hch : Checkout db userID order items payment histID
                      = (.error (.storage e1), db2) := by
                    simp [Checkout, hempty, hcs, hco]
                  rw [hch, hdb2]
                  refine ⟨?_, fun e he => ?_⟩
                  · rw [hdo, hdh, hanyo, hanyh]
                  · exact hdc
              | ok u =>
                  cases u
                  obtain ⟨hany2, ho2, hh2, hc2, hp2, hi2, hpr2⟩ := createOrder_ok_cases _ _ _ _ hco
                  cases hci : createItems db2 items with
                  | mk rci db3 =>
                      have hpres3 := createItems_preserves items db2
                      rw [hci] at hpres3
                      obtain ⟨hc3, ho3, hh3, hp3, hpr3⟩ := hpres3
                      cases rci with
                      | error e2 =>
                          have hch : Checkout db userID order items payment histID
                              = (.error (.storage e2), db3) := by
                            simp [Checkout, hempty, hcs, hco, hci]
                          rw [hch]
                          refine ⟨?_, fun e he => ?_⟩
                          · rw [ho3, ho2, hh3, hh2, hdo, hdh, List.any_append, List.any_append,
                              hanyo, hanyh]
                            simp
                          · rw [hc3, hc2]
                            exact hdc
                      | ok u2 =>
                          cases u2
                          cases hcp : CreatePayment db3 payment with
                          | mk rcp db4 =>
                              have hpres4 := createPayment_preserves db3 payment
                              rw [hcp] at hpres4
                              obtain ⟨hc4, ho4, hh4, hi4, hpr4⟩ := hpres4
                              cases rcp with
                              | error e3 =>
                                  have hch : Checkout db userID order items payment histID
                                      = (.error (.storage e3), db4) := by
                                    simp [Checkout, hempty, hcs, hco, hci, hcp]
                                  rw [hch]
                                  refine ⟨?_, fun e he => ?_⟩
                                  · rw [ho4, ho3, ho2, hh4, hh3, hh2, hdo, hdh, List.any_append,
                                      List.any_append, hanyo, hanyh]
                                    simp
                                  · rw [hc4, hc3, hc2]
                                    exact hdc
                              | ok u3 =>
                                  cases u3
                                  have hch : Checkout db userID order items payment histID
                                      = (.ok (), (ClearCart db4 userID).2) := by
                                    simp [Checkout, hempty, hcs, hco, hci, hcp]
                                  rw [hch]
                                  refine ⟨?_, fun e he => ?_⟩
                                  · rw [show (ClearCart db4 userID).2.orders = db4.orders from rfl,
                                      show (ClearCart db4 userID).2.histories = db4.histories from rfl,
                                      ho4, ho3, ho2, hh4, hh3, hh2, hdo, hdh, List.any_append,
                                      List.any_append, hanyo, hanyh]
                                    simp
                                  · exact Except.noConfusion he

theorem C5_amended_witness :
    (∀ o ∈ (OrderDB.mk [Cart.mk 1 1 5 1] [] [] [] [Payment.mk 77 99 1 27 "m" "pending" "" none ""]
        [Product.mk 5 3 10 true]).orders, o.id ≠ 10) ∧
      (∀ x ∈ (OrderDB.mk [Cart.mk 1 1 5 1] [] [] [] [Payment.mk 77 99 1 27 "m" "pending" "" none ""]
        [Product.mk 5 3 10 true]).histories, x.orderID ≠ 10) ∧
      (((Checkout
          (OrderDB.mk [Cart.mk 1 1 5 1] [] [] [] [Payment.mk 77 99 1 27 "m" "pending" "" none ""]
            [Product.mk 5 3 10 true])
          1 (Order.mk 10 1 "ORD-10" "pending" 12 2 10 "a" 0 "pending" "")
          [OrderItem.mk 20 10 5 1 10 10] (Payment.mk 77 10 1 12 "m" "pending" "" none "") 30).2.orders.any
            (fun o => o.id == 10))
        = ((Checkout
          (OrderDB.mk [Cart.mk 1 1 5 1] [] [] [] [Payment.mk 77 99 1 27 "m" "pending" "" none ""]
            [Product.mk 5 3 10 true])
          1 (Order.mk 10 1 "ORD-10" "pending" 12 2 10 "a" 0 "pending" "")
          [OrderItem.mk 20 10 5 1 10 10] (Payment.mk 77 10 1 12 "m" "pending" "" none "") 30).2.histories.any
            (fun x => x.orderID == 10))) :=
  ⟨by decide, by decide,
    (C5_order_history_pair_and_cart_kept
      (OrderDB.mk [Cart.mk 1 1 5 1] [] [] [] [Payment.mk 77 99 1 27 "m" "pending" "" none ""]
        [Product.mk 5 3 10 true])
      1 (Order.mk 10 1 "ORD-10" "pending" 12 2 10 "a" 0 "pending" "")
      [OrderItem.mk 20 10 5 1 10 10] (Payment.mk 77 10 1 12 "m" "pending" "" none "") 30
      (by decide) (by decide)).1⟩

theorem updatePaymentStatus_orders (db : OrderDB) (pid : UUID) (st tid : String) (now : Nat) :
    (UpdatePaymentStatus db pid st tid now).2.orders = db.orders := rfl

theorem updatePaymentStatus_histories (db : OrderDB) (pid : UUID) (st tid : String) (now : Nat) :
    (UpdatePaymentStatus db pid st tid now).2.histories = db.histories := rfl

theorem updatePaymentStatus_payments (db : OrderDB) (pid : UUID) (st tid : String) (now : Nat) :
    (UpdatePaymentStatus db pid st tid now).2.payments
      = db.payments.map (fun p => if p.id == pid then paymentUpdateApply st tid now p else p) := rfl

theorem paymentUpdateApply_status (st tid : String) (now : Nat) (p : Payment) :
    (paymentUpdateApply st tid now p).status = st := by
  cases htid : (tid == "") <;> cases hst : (st == "paid") <;>
    simp [paymentUpdateApply, htid, hst]

theorem paymentUpdateApply_transactionID (st tid : String) (now : Nat) (p : Payment) :
    (paymentUpdateApply st tid now p).transactionID
      = if tid == "" then p.transactionID else tid := by
  cases htid : (tid == "") <;> cases hst : (st == "paid") <;>
    simp [paymentUpdateApply, htid, hst]

theorem find?_payments_update (l : List Payment) (ref : String) (p : Payment)
    (f : Payment → Payment)
    (hfind : l.find? (fun q => q.transactionID == ref) = some p)
    (hids : ∀ q ∈ l, q.id = p.id → q = p)
    (hpres : ((f p).transactionID == ref) = true) :
    (l.map (fun q => if q.id == p.id then f q else q)).find? (fun q => q.transactionID == ref)
      = some (f p) := by
  induction l with
  | nil => simp at hfind
  | cons a t ih =>
      cases hat : (a.transactionID == ref) with
      | true =>
          have hap : a = p := by
            rw [@List.find?_cons_of_pos _ (fun q => q.transactionID == ref) a _ hat] at hfind
            exact Option.some.inj hfind
          subst hap
          have hfa : (if a.id == a.id then f a else a) = f a := if_pos (by simp)
          rw [List.map_cons, hfa,
            @List.find?_cons_of_pos _ (fun q => q.transactionID == ref) (f a) _ hpres]
      | false =>
          have hfind' : t.find? (fun q => q.transactionID == ref) = some p := by
            rw [@List.find?_cons_of_neg _ (fun q => q.transactionID == ref) a _ (by simp [hat])] at hfind
            exact hfind
          have hne : (a.id == p.id) = false := by
            cases hae : (a.id == p.id) with
            | false => rfl
            | true =>
                have hap : a = p := hids a (List.mem_cons_self a t) (by simpa using hae)
                subst hap
                have hp := List.find?_some hfind'
                exact absurd hp (by simp [hat])
          have hfa : (if a.id == p.id then f a else a) = a := if_neg (by simp [hne])
          rw [List.map_cons, hfa,
            @List.find?_cons_of_neg _ (fun q => q.transactionID == ref) a _ (by simp [hat])]
          exact ih hfind' (fun q hq hqe => hids q (List.mem_cons_of_mem a hq) hqe)

/-- C6: payment-callback application is idempotent. From a state whose
payment (found by external reference) is still `pending` and whose order
is `pending`, a successful callback succeeds and writes exactly one new
history row (one order transition); re-delivering the identical callback
(same externalReference, same gateway status, same amount) returns
success and changes nothing — the payment is then terminal (`paid`) and
the idempotency guard returns before any write. -/
theorem C6_callback_idempotent (db : OrderDB) (ref gs : String) (amount : Money)
    (now now2 : Nat) (histID histID2 : UUID) (p : Payment) (o : Order)
    (hfind : db.payments.find? (fun q => q.transactionID == ref) = some p)
    (hids : ∀ q ∈ db.payments, q.id = p.id → q = p)
    (hp : p.status = "pending")
    (hmap : mapGatewayStatus gs = some "paid")
    (hamt : amount = p.amount)
    (hofind : db.orders.find? (fun x => x.id == p.orderID) = some o)
    (ho : o.status = "pending")
    (hhid : db.histories.any (fun x => x.id == histID) = false) :
    (ApplyCallback db ref gs amount now histID).1 = .ok () ∧
      ApplyCallback (ApplyCallback db ref gs amount now histID).2 ref gs amount now2 histID2
        = (.ok (), (ApplyCallback db ref gs amount now histID).2) ∧
      (ApplyCallback db ref gs amount now histID).2.histories.length
        = db.histories.length + 1 := by
  subst hamt
  have hterm : terminalStatuses.contains p.status = false := by rw [hp]; decide
  have hvt : validTransition "pending" "confirmed" = true := by decide
  have happ1 : ApplyCallback db ref gs p.amount now histID
      = (.ok (), { db with
          payments := db.payments.map
            (fun q => if q.id == p.id then paymentUpdateApply "paid" ref now q else q),
          orders := db.orders.map
            (fun x => if x.id == p.orderID then { o with status := "confirmed" } else x),
          histories := db.histories ++
            [OrderStatusHistory.mk histID p.orderID "confirmed" "confirmed" "Payment received" p.userID] }) := by
    unfold ApplyCallback TransitionOrder UpdateOrderStatus
    simp only [hfind, hmap, hterm, Bool.false_eq_true, if_false, beq_self_eq_true,
      Bool.not_true, updatePaymentStatus_orders, updatePaymentStatus_histories,
      updatePaymentStatus_payments, hofind, ho, hvt, hhid, if_true]
    rfl
  have hpres : ((paymentUpdateApply "paid" ref now p).transactionID == ref) = true := by
    rw [paymentUpdateApply_transactionID]
    cases href : (ref == "") with
    | true =>
        simp only [if_true]
        have hp' := List.find?_some hfind
        exact hp'
    | false => simp [href]
  have hfind2 : (db.payments.map
      (fun q => if q.id == p.id then paymentUpdateApply "paid" ref now q else q)).find?
        (fun q => q.transactionID == ref) = some (paymentUpdateApply "paid" ref now p) :=
    find?_payments_update db.payments ref p _ hfind hids hpres
  have hterm2 : terminalStatuses.contains (paymentUpdateApply "paid" ref now p).status = true := by
    rw [paymentUpdateApply_status]
    decide
  have hguard : ("paid" == (paymentUpdateApply "paid" ref now p).status) = true := by
    rw [paymentUpdateApply_status]
    decide
  rw [happ1]
  refine ⟨rfl, ?_, by simp⟩
  show ApplyCallback _ ref gs p.amount now2 histID2 = _
  unfold ApplyCallback
  simp only [hfind2, hmap, hterm2, hguard, if_true]

theorem C6_witness :
    (ApplyCallback
        (OrderDB.mk [] [Order.mk 2 3 "N" "pending" 27 0 27 "" 0 "pending" ""] [] []
          [Payment.mk 1 2 3 27 "m" "pending" "" none "TX1"] [])
        "TX1" "settlement" 27 5 9).1 = .ok () ∧
      ApplyCallback
          (ApplyCallback
            (OrderDB.mk [] [Order.mk 2 3 "N" "pending" 27 0 27 "" 0 "pending" ""] [] []
              [Payment.mk 1 2 3 27 "m" "pending" "" none "TX1"] [])
            "TX1" "settlement" 27 5 9).2 "TX1" "settlement" 27 6 11
        = (.ok (),
            (ApplyCallback
              (OrderDB.mk [] [Order.mk 2 3 "N" "pending" 27 0 27 "" 0 "pending" ""] [] []
                [Payment.mk 1 2 3 27 "m" "pending" "" none "TX1"] [])
              "TX1" "settlement" 27 5 9).2) ∧
      (ApplyCallback
          (OrderDB.mk [] [Order.mk 2 3 "N" "pending" 27 0 27 "" 0 "pending" ""] [] []
            [Payment.mk 1 2 3 27 "m" "pending" "" none "TX1"] [])
          "TX1" "settlement" 27 5 9).2.histories.length
        = (OrderDB.mk [] [Order.mk 2 3 "N" "pending" 27 0 27 "" 0 "pending" ""] [] []
            [Payment.mk 1 2 3 27 "m" "pending" "" none "TX1"] []).histories.length + 1 :=
  C6_callback_idempotent
    (OrderDB.mk [] [Order.mk 2 3 "N" "pending" 27 0 27 "" 0 "pending" ""] [] []
      [Payment.mk 1 2 3 27 "m" "pending" "" none "TX1"] [])
    "TX1" "settlement" 27 5 6 9 11
    (Payment.mk 1 2 3 27 "m" "pending" "" none "TX1")
    (Order.mk 2 3 "N" "pending" 27 0 27 "" 0 "pending" "")
    (by decide) (by decide) (by decide) (by decide) (by decide) (by decide) (by decide) (by decide)
